import Mathlib

/-!
Verification of the sentiment-analysis HTTP service (`src/app.py`,
`src/main.py`; the two files define identical route handlers).

The route handlers are shallowly embedded as pure Lean functions.  Python
JSON values are modelled by `PyVal`; Python floats are idealised as
rationals.  The two external collaborators — Flask's `request.get_json`
and the `sentiment_analyzer` pipeline — are passed in as parameters: the
classifier as a function `String → Except String (List SentimentResult)`
(`Except.error msg` models a raised exception whose `str(e)` is `msg`),
and the body-parsing outcome as an `Except String (Option PyVal)`.
-/

/-- A Python value, as produced by JSON deserialisation (plus `None`).
Dictionaries are association lists; JSON parsing never produces duplicate
keys, and all lookups take the first binding. -/
inductive PyVal where
  | none
  | bool (b : Bool)
  | int (n : ℤ)
  | float (q : ℚ)
  | str (s : String)
  | list (xs : List PyVal)
  | dict (fields : List (String × PyVal))

/-- Structural equality on `PyVal` (Python `==` restricted to the values
JSON can produce, with numeric types kept apart). -/
def PyVal.beq : PyVal → PyVal → Bool
  | .none, .none => true
  | .bool a, .bool b => a == b
  | .int a, .int b => a == b
  | .float a, .float b => a == b
  | .str a, .str b => a == b
  | .list [], .list [] => true
  | .list (x :: xs), .list (y :: ys) => x.beq y && (PyVal.list xs).beq (.list ys)
  | .dict [], .dict [] => true
  | .dict ((k, v) :: fs), .dict ((l, w) :: gs) =>
      k == l && v.beq w && (PyVal.dict fs).beq (.dict gs)
  | _, _ => false

instance : BEq PyVal := ⟨PyVal.beq⟩

/-- Python truthiness (`if not data`): `None`, `False`, zero, and empty
strings/lists/dicts are falsy; everything else is truthy. -/
def PyVal.truthy : PyVal → Bool
  | .none => false
  | .bool b => b
  | .int n => n ≠ 0
  | .float q => q ≠ 0
  | .str s => s ≠ ""
  | .list xs => !xs.isEmpty
  | .dict fs => !fs.isEmpty

/-- The Python type name of a value, as it appears in error messages. -/
def PyVal.typeName : PyVal → String
  | .none => "NoneType"
  | .bool _ => "bool"
  | .int _ => "int"
  | .float _ => "float"
  | .str _ => "str"
  | .list _ => "list"
  | .dict _ => "dict"

/-- Wrap a string in the single quotes Python error messages use
(`\x27` is the quote character). -/
def quoted (s : String) : String := "\x27" ++ s ++ "\x27"

/-- Python `key in data` for a string key: key membership for dicts,
element membership for lists, substring test for strings; raises
`TypeError` on non-iterable values. -/
def pyContains (key : String) : PyVal → Except String Bool
  | .dict fs => .ok (fs.lookup key).isSome
  | .list xs => .ok (xs.contains (.str key))
  | .str s => .ok (decide (2 ≤ (s.splitOn key).length))
  | v => .error ("argument of type " ++ quoted v.typeName ++ " is not iterable")

/-- Python `data[key]` for a string key: dict lookup (first binding;
`KeyError` when absent); raises `TypeError` for every other value. -/
def pyGetItem (key : String) : PyVal → Except String PyVal
  | .dict fs =>
      match fs.lookup key with
      | some v => .ok v
      | Option.none => .error ("KeyError: " ++ key)
  | .list _ => .error "list indices must be integers or slices, not str"
  | .str _ => .error "string indices must be integers"
  | v => .error (quoted v.typeName ++ " object is not subscriptable")

/-- A sentiment entry `{label, score}` as returned by the classifier;
the float score is idealised as a rational. -/
structure SentimentResult where
  label : String
  score : ℚ
  deriving DecidableEq, Repr

/-- The classification capability: either a list of results, or a raised
exception carrying its message text. -/
def Classifier : Type := String → Except String (List SentimentResult)

/-- An HTTP response: the `jsonify`-ed body together with the status. -/
structure Response where
  body : PyVal
  status : ℕ

/-- The body `{"error": msg}` every error response is built from. -/
def errBody (msg : String) : PyVal := .dict [("error", .str msg)]

/-- Python `str.strip()` with no argument: remove leading and trailing
whitespace. -/
def pyStrip (s : String) : String :=
  String.mk ((s.data.dropWhile Char.isWhitespace).reverse.dropWhile Char.isWhitespace).reverse

/-- Python `round` on an idealised float: round half to even. -/
def roundHalfEven (q : ℚ) : ℤ :=
  if q - ⌊q⌋ < 1/2 then ⌊q⌋
  else if 1/2 < q - ⌊q⌋ then ⌊q⌋ + 1
  else if ⌊q⌋ % 2 = 0 then ⌊q⌋ else ⌊q⌋ + 1

/-- `round(score, 4)`: round to 4 decimal digits, half to even. -/
def pyRound4 (q : ℚ) : ℚ := (roundHalfEven (q * 10000) : ℚ) / 10000

/-- The `sentiment_results` list built by both handlers' `for` loop:
one `{label, score}` dict per classifier entry, label unchanged, score
rounded to 4 decimal digits. -/
def formatResults (rs : List SentimentResult) : PyVal :=
  .list (rs.map fun r => .dict [("label", .str r.label), ("score", .float (pyRound4 r.score))])

/-- The 200 response body `{"input_text": text, "sentiment_results": [...]}`. -/
def successBody (text : String) (rs : List SentimentResult) : PyVal :=
  .dict [("input_text", .str text), ("sentiment_results", formatResults rs)]

/-- The `except Exception as e` wrapper shared by both analyze handlers. -/
def exceptionResponse (msg : String) : Response :=
  ⟨errBody ("An error occurred during sentiment analysis: " ++ msg), 500⟩

/-- `analyze_sentiment` (POST /analyze) from `src/app.py`, as a function of
the outcome of `request.get_json()` (`.error` = the parse raised, `.ok none`
= it yielded no data / `None`) and of the classifier.  Follows the source
line by line: `if not data or 'text' not in data` (short-circuit `or`),
then `text = data['text']`, `if not text.strip()` (an `AttributeError` when
`text` is not a string), then `sentiment_analyzer(text)` and the response
loop; any exception is caught and wrapped as a 500. -/
def analyze_sentiment (getJson : Except String (Option PyVal))
    (classifier : Classifier) : Response :=
  let tryBody : Except String Response := do
    let dataOpt ← getJson
    let data := dataOpt.getD PyVal.none
    if !data.truthy then
      pure ⟨errBody "Please provide text in JSON format with \"text\" key", 400⟩
    else do
      let hasText ← pyContains "text" data
      if !hasText then
        pure ⟨errBody "Please provide text in JSON format with \"text\" key", 400⟩
      else do
        let text ← pyGetItem "text" data
        match text with
        | .str s =>
            if pyStrip s = "" then
              pure ⟨errBody "Text cannot be empty", 400⟩
            else do
              let results ← classifier s
              pure ⟨successBody s results, 200⟩
        | v => .error (quoted v.typeName ++ " object has no attribute " ++ quoted "strip")
  match tryBody with
  | .ok r => r
  | .error msg => exceptionResponse msg

/-- `analyze_sentiment_get` (GET /analyze) from `src/app.py`, as a function
of the `text` query parameter (`request.args.get('text', '')` defaults the
absent parameter to the empty string) and of the classifier. -/
def analyze_sentiment_get (textParam : Option String)
    (classifier : Classifier) : Response :=
  let text := textParam.getD ""
  let tryBody : Except String Response :=
    if pyStrip text = "" then
      pure ⟨errBody "Please provide text using the \"text\" query parameter", 400⟩
    else do
      let results ← classifier text
      pure ⟨successBody text results, 200⟩
  match tryBody with
  | .ok r => r
  | .error msg => exceptionResponse msg

/-- `health_check` (GET /health) from `src/app.py`: a constant response. -/
def health_check : Response :=
  ⟨.dict [("status", .str "healthy"),
          ("service", .str "Sentiment Analysis API"),
          ("model", .str "cardiffnlp/twitter-roberta-base-sentiment-latest")], 200⟩

/-- Modelled from the spec: the behaviour of Flask's `request.get_json()`
(Flask is not part of src/).  Per section 7 of the spec, "malformed JSON
parsing before validation can run" raises an exception that the route
boundary turns into a 500; per section 4.1, an absent body yields no data,
which the handler's `if not data` check turns into a 400. -/
inductive RequestBody where
  | absent
  | malformed (msg : String)
  | json (v : PyVal)

/-- Modelled from the spec: `request.get_json()` as a function of the
request body — an absent body yields no data, a malformed body raises,
a well-formed body yields its parsed value. -/
def get_json : RequestBody → Except String (Option PyVal)
  | .absent => .ok Option.none
  | .malformed msg => .error msg
  | .json v => .ok (some v)

/-- The full POST /analyze route: Flask body parsing composed with the
`analyze_sentiment` handler. -/
def post_analyze (body : RequestBody) (classifier : Classifier) : Response :=
  analyze_sentiment (get_json body) classifier

/-- `score` is reported "rounded to exactly 4 decimal places": it is an
integer multiple of 1/10000. -/
def isRounded4 (q : ℚ) : Prop := ∃ n : ℤ, q = (n : ℚ) / 10000

theorem pyRound4_isRounded4 (q : ℚ) : isRounded4 (pyRound4 q) :=
  ⟨roundHalfEven (q * 10000), rfl⟩

/-- Exhaustive shape analysis of the POST handler: every outcome is a
validation 400 (independent of the classifier), a success 200, or a
wrapped-exception 500. -/
theorem analyze_sentiment_cases (gj : Except String (Option PyVal)) (c c' : Classifier) :
    (∃ m, analyze_sentiment gj c = ⟨errBody m, 400⟩ ∧
          analyze_sentiment gj c' = ⟨errBody m, 400⟩) ∨
    (∃ t rs, analyze_sentiment gj c = ⟨successBody t rs, 200⟩) ∨
    (∃ m, analyze_sentiment gj c = exceptionResponse m) := by
  unfold analyze_sentiment
  cases gj with
  | error m =>
      right; right
      exact ⟨m, by simp [bind, Except.bind]⟩
  | ok dataOpt =>
      simp only [bind, Except.bind]
      by_cases htr : (dataOpt.getD PyVal.none).truthy
      case neg =>
        simp only [Bool.not_eq_true] at htr
        left
        refine ⟨"Please provide text in JSON format with \"text\" key", ?_, ?_⟩ <;>
          simp [htr, pure, Except.pure]
      case pos =>
        cases hpc : pyContains "text" (dataOpt.getD PyVal.none) with
        | error m =>
            right; right
            exact ⟨m, by simp [htr, hpc, pure, Except.pure]⟩
        | ok b =>
            cases b with
            | false =>
                left
                refine ⟨"Please provide text in JSON format with \"text\" key", ?_, ?_⟩ <;>
                  simp [htr, hpc, pure, Except.pure]
            | true =>
                cases hgi : pyGetItem "text" (dataOpt.getD PyVal.none) with
                | error m =>
                    right; right
                    exact ⟨m, by simp [htr, hpc, hgi, pure, Except.pure]⟩
                | ok v =>
                    cases v
                    case str s =>
                      by_cases hs : pyStrip s = ""
                      · left
                        refine ⟨"Text cannot be empty", ?_, ?_⟩ <;>
                          simp [htr, hpc, hgi, hs, pure, Except.pure]
                      · cases hc : c s with
                        | ok rs =>
                            right; left
                            exact ⟨s, rs,
                              by simp [htr, hpc, hgi, hs, hc, pure, Except.pure]⟩
                        | error m =>
                            right; right
                            exact ⟨m,
                              by simp [htr, hpc, hgi, hs, hc, pure, Except.pure]⟩
                    all_goals
                      right; right
                      simp only [htr, hpc, hgi]
                      exact ⟨_, rfl⟩

/-- Exhaustive shape analysis of the GET handler. -/
theorem analyze_get_cases (p : Option String) (c c' : Classifier) :
    (∃ m, analyze_sentiment_get p c = ⟨errBody m, 400⟩ ∧
          analyze_sentiment_get p c' = ⟨errBody m, 400⟩) ∨
    (∃ t rs, analyze_sentiment_get p c = ⟨successBody t rs, 200⟩) ∨
    (∃ m, analyze_sentiment_get p c = exceptionResponse m) := by
  unfold analyze_sentiment_get
  by_cases ht : pyStrip (p.getD "") = ""
  · left
    refine ⟨"Please provide text using the \"text\" query parameter", ?_, ?_⟩ <;>
      simp [ht, pure, Except.pure]
  · cases hc : c (p.getD "") with
    | ok rs =>
        right; left
        exact ⟨p.getD "", rs, by simp [ht, hc, bind, Except.bind, pure, Except.pure]⟩
    | error m =>
        right; right
        exact ⟨m, by simp [ht, hc, bind, Except.bind, pure, Except.pure]⟩

/-- Normal form of the POST route on a body `{"text": t}` with `t` a
string. -/
theorem post_single_text_eq (t : String) (c : Classifier) :
    post_analyze (.json (.dict [("text", .str t)])) c =
      if pyStrip t = "" then ⟨errBody "Text cannot be empty", 400⟩
      else match c t with
        | .ok rs => ⟨successBody t rs, 200⟩
        | .error m => exceptionResponse m := by
  unfold post_analyze get_json analyze_sentiment
  by_cases ht : pyStrip t = ""
  · simp [PyVal.truthy, pyContains, pyGetItem, List.lookup, ht,
      bind, Except.bind, pure, Except.pure]
  · cases hc : c t with
    | ok rs =>
        simp [PyVal.truthy, pyContains, pyGetItem, List.lookup, ht, hc,
          bind, Except.bind, pure, Except.pure]
    | error m =>
        simp [PyVal.truthy, pyContains, pyGetItem, List.lookup, ht, hc,
          bind, Except.bind, pure, Except.pure]

/-- Normal form of the GET route. -/
theorem get_text_eq (p : Option String) (c : Classifier) :
    analyze_sentiment_get p c =
      if pyStrip (p.getD "") = "" then
        ⟨errBody "Please provide text using the \"text\" query parameter", 400⟩
      else match c (p.getD "") with
        | .ok rs => ⟨successBody (p.getD "") rs, 200⟩
        | .error m => exceptionResponse m := by
  unfold analyze_sentiment_get
  by_cases ht : pyStrip (p.getD "") = ""
  · simp [ht, pure, Except.pure]
  · cases hc : c (p.getD "") with
    | ok rs => simp [ht, hc, bind, Except.bind, pure, Except.pure]
    | error m => simp [ht, hc, bind, Except.bind, pure, Except.pure]

/-- C1: a POST /analyze request whose JSON body maps `"text"` to a string
that is non-empty after stripping, with the classifier returning entries
`rs`, yields status 200 and the body `{"input_text": t,
"sentiment_results": rs}`: the raw (unstripped) text is echoed and passed
to the classifier unchanged, each label is passed through unmodified, and
each score is `round(score, 4)`, in the classifier's order. -/
theorem C1_post_success_shape (fs : List (String × PyVal)) (t : String)
    (c : Classifier) (rs : List SentimentResult)
    (hlookup : List.lookup "text" fs = some (.str t))
    (ht : pyStrip t ≠ "")
    (hc : c t = .ok rs) :
    post_analyze (.json (.dict fs)) c =
      ⟨.dict [("input_text", .str t),
              ("sentiment_results",
                .list (rs.map fun r =>
                  .dict [("label", .str r.label),
                         ("score", .float (pyRound4 r.score))]))], 200⟩ := by
  cases fs with
  | nil => simp [List.lookup] at hlookup
  | cons kv fsT =>
      unfold post_analyze get_json analyze_sentiment
      simp [PyVal.truthy, pyContains, pyGetItem, hlookup, ht, hc,
        bind, Except.bind, pure, Except.pure, successBody, formatResults]

/-- C1 witness: a concrete successful POST request. -/
theorem C1_post_success_shape_witness :
    post_analyze (.json (.dict [("text", .str "I love this!")]))
        (fun _ => .ok [⟨"positive", 98765 / 100000⟩]) =
      ⟨.dict [("input_text", .str "I love this!"),
              ("sentiment_results",
                .list [.dict [("label", .str "positive"),
                              ("score", .float (pyRound4 (98765 / 100000)))]])], 200⟩ :=
  C1_post_success_shape [("text", .str "I love this!")] "I love this!" _
    [⟨"positive", 98765 / 100000⟩] rfl (by decide) rfl

/-- C2 counterexample: a POST body that is not valid JSON makes
`request.get_json()` raise; the blanket `except` turns that into the 500
wrapper, not the 400 with the missing-key message that the claim states. -/
theorem C2_counterexample :
    post_analyze (.malformed "Failed to decode JSON object")
        (fun _ => .ok [⟨"positive", 1 / 2⟩]) =
      exceptionResponse "Failed to decode JSON object" ∧
    (post_analyze (.malformed "Failed to decode JSON object")
        (fun _ => .ok [⟨"positive", 1 / 2⟩])).status ≠ 400 :=
  ⟨rfl, by decide⟩

/-- C2 amended: an absent body (no data) or a JSON body lacking a `text`
field yields 400 with the fixed missing-key message; a body that is not
valid JSON makes the parse raise and yields the 500 wrapper instead. -/
theorem C2_missing_or_malformed_body (c : Classifier) :
    post_analyze .absent c =
      ⟨errBody "Please provide text in JSON format with \"text\" key", 400⟩ ∧
    (∀ msg, post_analyze (.malformed msg) c = exceptionResponse msg) ∧
    ∀ fs, List.lookup "text" fs = Option.none →
      post_analyze (.json (.dict fs)) c =
        ⟨errBody "Please provide text in JSON format with \"text\" key", 400⟩ := by
  refine ⟨rfl, fun msg => rfl, fun fs hfs => ?_⟩
  cases fs with
  | nil => rfl
  | cons kv fsT =>
      unfold post_analyze get_json analyze_sentiment
      simp [PyVal.truthy, pyContains, hfs, bind, Except.bind, pure, Except.pure]

/-- C2 witness: a concrete body with no `text` key gets the 400. -/
theorem C2_missing_or_malformed_body_witness :
    post_analyze (.json (.dict [("other", .int 1)])) (fun _ => .ok []) =
      ⟨errBody "Please provide text in JSON format with \"text\" key", 400⟩ :=
  (C2_missing_or_malformed_body (fun _ => .ok [])).2.2 [("other", .int 1)] rfl

/-- C3: when the classifier raises, both analyze routes catch the
exception at the route boundary and return status 500 with the message
embedded verbatim in the wrapper body. -/
theorem C3_classifier_exception (t msg : String) (c : Classifier)
    (ht : pyStrip t ≠ "") (hc : c t = .error msg) :
    post_analyze (.json (.dict [("text", .str t)])) c =
      ⟨errBody ("An error occurred during sentiment analysis: " ++ msg), 500⟩ ∧
    analyze_sentiment_get (some t) c =
      ⟨errBody ("An error occurred during sentiment analysis: " ++ msg), 500⟩ := by
  constructor
  · rw [post_single_text_eq]
    simp [ht, hc, exceptionResponse]
  · rw [get_text_eq]
    simp [ht, hc, exceptionResponse]

/-- C3 witness: a concrete raising classifier on both routes. -/
theorem C3_classifier_exception_witness :
    post_analyze (.json (.dict [("text", .str "hi")])) (fun _ => .error "boom") =
      ⟨errBody ("An error occurred during sentiment analysis: " ++ "boom"), 500⟩ ∧
    analyze_sentiment_get (some "hi") (fun _ => .error "boom") =
      ⟨errBody ("An error occurred during sentiment analysis: " ++ "boom"), 500⟩ :=
  C3_classifier_exception "hi" "boom" (fun _ => .error "boom") (by decide) rfl

/-- C4: text that is empty after stripping yields 400 with the
route-specific message: "Text cannot be empty" on POST, and the
query-parameter message on GET, where an absent parameter defaults to the
empty string. -/
theorem C4_empty_text (c : Classifier) :
    (∀ fs t, List.lookup "text" fs = some (.str t) → pyStrip t = "" →
      post_analyze (.json (.dict fs)) c = ⟨errBody "Text cannot be empty", 400⟩) ∧
    ∀ p : Option String, pyStrip (p.getD "") = "" →
      analyze_sentiment_get p c =
        ⟨errBody "Please provide text using the \"text\" query parameter", 400⟩ := by
  constructor
  · intro fs t hlookup ht
    cases fs with
    | nil => simp [List.lookup] at hlookup
    | cons kv fsT =>
        unfold post_analyze get_json analyze_sentiment
        simp [PyVal.truthy, pyContains, pyGetItem, hlookup, ht,
          bind, Except.bind, pure, Except.pure]
  · intro p hp
    rw [get_text_eq]
    simp [hp]

/-- C4 witness: whitespace-only POST text and absent GET parameter. -/
theorem C4_empty_text_witness :
    post_analyze (.json (.dict [("text", .str "   ")])) (fun _ => .ok []) =
      ⟨errBody "Text cannot be empty", 400⟩ ∧
    analyze_sentiment_get Option.none (fun _ => .ok []) =
      ⟨errBody "Please provide text using the \"text\" query parameter", 400⟩ :=
  ⟨(C4_empty_text (fun _ => .ok [])).1 [("text", .str "   ")] "   " rfl rfl,
   (C4_empty_text (fun _ => .ok [])).2 Option.none rfl⟩

/-- C5: a request rejected with a validation 400 never invokes the
classifier: whenever either route answers 400, the entire response is
independent of the classifier. -/
theorem C5_validation_never_classifies (b : RequestBody) (p : Option String)
    (c c' : Classifier) :
    ((post_analyze b c).status = 400 → post_analyze b c = post_analyze b c') ∧
    ((analyze_sentiment_get p c).status = 400 →
      analyze_sentiment_get p c = analyze_sentiment_get p c') := by
  constructor
  · intro h400
    unfold post_analyze at *
    rcases analyze_sentiment_cases (get_json b) c c' with ⟨m, h1, h2⟩ | ⟨t, rs, h⟩ | ⟨m, h⟩
    · rw [h1, h2]
    · rw [h] at h400
      simp at h400
    · rw [h] at h400
      simp [exceptionResponse] at h400
  · intro h400
    rcases analyze_get_cases p c c' with ⟨m, h1, h2⟩ | ⟨t, rs, h⟩ | ⟨m, h⟩
    · rw [h1, h2]
    · rw [h] at h400
      simp at h400
    · rw [h] at h400
      simp [exceptionResponse] at h400

/-- C5 witness: two classifiers that disagree everywhere still give the
same 400 on a rejected request, on both routes. -/
theorem C5_validation_never_classifies_witness :
    post_analyze .absent (fun _ => .ok []) =
      post_analyze .absent (fun _ => .error "x") ∧
    analyze_sentiment_get Option.none (fun _ => .ok []) =
      analyze_sentiment_get Option.none (fun _ => .error "x") :=
  ⟨(C5_validation_never_classifies .absent Option.none
      (fun _ => .ok []) (fun _ => .error "x")).1 rfl,
   (C5_validation_never_classifies .absent Option.none
      (fun _ => .ok []) (fun _ => .error "x")).2 rfl⟩

/-- C6: past validation the two entry points are equivalent: for text
non-empty after stripping, GET /analyze with the query parameter returns
exactly the same response as POST /analyze with the JSON body, for every
classifier outcome (same echo, same results, same 500 on exception). -/
theorem C6_get_post_equivalent (t : String) (c : Classifier)
    (ht : pyStrip t ≠ "") :
    analyze_sentiment_get (some t) c =
      post_analyze (.json (.dict [("text", .str t)])) c := by
  rw [get_text_eq, post_single_text_eq]
  simp [ht]

/-- C6 witness at a concrete text and classifier. -/
theorem C6_get_post_equivalent_witness :
    analyze_sentiment_get (some "great") (fun _ => .ok [⟨"positive", 1 / 3⟩]) =
      post_analyze (.json (.dict [("text", .str "great")]))
        (fun _ => .ok [⟨"positive", 1 / 3⟩]) :=
  C6_get_post_equivalent "great" (fun _ => .ok [⟨"positive", 1 / 3⟩]) (by decide)

/-- C7: every 400 or 500 response on either analyze route is a JSON
object with a single string `error` field. -/
theorem C7_error_responses_shape (gj : Except String (Option PyVal))
    (p : Option String) (c : Classifier) :
    ((analyze_sentiment gj c).status = 400 ∨ (analyze_sentiment gj c).status = 500 →
      ∃ m, (analyze_sentiment gj c).body = errBody m) ∧
    ((analyze_sentiment_get p c).status = 400 ∨ (analyze_sentiment_get p c).status = 500 →
      ∃ m, (analyze_sentiment_get p c).body = errBody m) := by
  constructor
  · intro h45
    rcases analyze_sentiment_cases gj c c with ⟨m, h, _⟩ | ⟨t, rs, h⟩ | ⟨m, h⟩
    · exact ⟨m, by rw [h]⟩
    · rw [h] at h45
      simp at h45
    · exact ⟨"An error occurred during sentiment analysis: " ++ m, by rw [h]; rfl⟩
  · intro h45
    rcases analyze_get_cases p c c with ⟨m, h, _⟩ | ⟨t, rs, h⟩ | ⟨m, h⟩
    · exact ⟨m, by rw [h]⟩
    · rw [h] at h45
      simp at h45
    · exact ⟨"An error occurred during sentiment analysis: " ++ m, by rw [h]; rfl⟩

/-- C7 witness: a rejected POST body has the single-error-field shape. -/
theorem C7_error_responses_shape_witness :
    ∃ m, (analyze_sentiment (.ok Option.none) (fun _ => .ok [])).body = errBody m :=
  (C7_error_responses_shape (.ok Option.none) Option.none (fun _ => .ok [])).1
    (Or.inl rfl)

/-- C8: GET /health is the constant 200 response carrying the fixed
status, service, and configured model identifier; it consults nothing
and has no failure path. -/
theorem C8_health_constant :
    health_check =
      ⟨.dict [("status", .str "healthy"),
              ("service", .str "Sentiment Analysis API"),
              ("model", .str "cardiffnlp/twitter-roberta-base-sentiment-latest")],
       200⟩ :=
  rfl

/-- C9 counterexample: `" "` is a non-empty string, yet POST /analyze
with it returns status 400, not 200 — the claim holds only for text
non-empty after trimming. -/
theorem C9_counterexample :
    (" " : String) ≠ "" ∧
    (post_analyze (.json (.dict [("text", .str " ")]))
        (fun _ => .ok [⟨"positive", 9 / 10⟩])).status = 400 ∧
    (post_analyze (.json (.dict [("text", .str " ")]))
        (fun _ => .ok [⟨"positive", 9 / 10⟩])).status ≠ 200 :=
  ⟨by decide, rfl, by decide⟩

/-- C9 amended: for every string that is non-empty after trimming, when
the classifier succeeds with a non-empty result list (the collaborator
contract promises one or more entries), POST /analyze returns status 200
and `sentiment_results` is a non-empty sequence whose every entry has a
score that is an integer multiple of 1/10000 (rounded to exactly 4
decimal places). -/
theorem C9_success_scores_rounded (t : String) (c : Classifier)
    (rs : List SentimentResult)
    (ht : pyStrip t ≠ "") (hc : c t = .ok rs) (hrs : rs ≠ []) :
    (post_analyze (.json (.dict [("text", .str t)])) c).status = 200 ∧
    ∃ entries : List PyVal,
      (post_analyze (.json (.dict [("text", .str t)])) c).body =
        .dict [("input_text", .str t), ("sentiment_results", .list entries)] ∧
      entries ≠ [] ∧
      ∀ e ∈ entries, ∃ l q, e = .dict [("label", .str l), ("score", .float q)] ∧
        isRounded4 q := by
  have h : post_analyze (.json (.dict [("text", .str t)])) c =
      ⟨successBody t rs, 200⟩ := by
    rw [post_single_text_eq]
    simp [ht, hc]
  rw [h]
  refine ⟨rfl,
    rs.map (fun r => .dict [("label", .str r.label), ("score", .float (pyRound4 r.score))]),
    ?_, ?_, ?_⟩
  · simp [successBody, formatResults]
  · simpa using hrs
  · intro e he
    simp only [List.mem_map] at he
    obtain ⟨r, _, rfl⟩ := he
    exact ⟨r.label, pyRound4 r.score, rfl, pyRound4_isRounded4 r.score⟩

/-- C9 witness at a concrete request and classifier. -/
theorem C9_success_scores_rounded_witness :
    (post_analyze (.json (.dict [("text", .str "nice")]))
        (fun _ => .ok [⟨"positive", 1 / 3⟩])).status = 200 ∧
    ∃ entries : List PyVal,
      (post_analyze (.json (.dict [("text", .str "nice")]))
          (fun _ => .ok [⟨"positive", 1 / 3⟩])).body =
        .dict [("input_text", .str "nice"), ("sentiment_results", .list entries)] ∧
      entries ≠ [] ∧
      ∀ e ∈ entries, ∃ l q, e = .dict [("label", .str l), ("score", .float q)] ∧
        isRounded4 q :=
  C9_success_scores_rounded "nice" (fun _ => .ok [⟨"positive", 1 / 3⟩])
    [⟨"positive", 1 / 3⟩] (by decide) rfl (by decide)

/-- C10: a `text` value that is not a string passes the membership check,
then `.strip()` raises an `AttributeError`, so the response is the
wrapped 500, not a 400 validation error. -/
theorem C10_nonstring_text_500 (fs : List (String × PyVal)) (v : PyVal)
    (c : Classifier)
    (hlookup : List.lookup "text" fs = some v)
    (hv : ∀ s, v ≠ .str s) :
    post_analyze (.json (.dict fs)) c =
      exceptionResponse (quoted v.typeName ++ " object has no attribute " ++ quoted "strip") ∧
    (post_analyze (.json (.dict fs)) c).status = 500 := by
  have h : post_analyze (.json (.dict fs)) c =
      exceptionResponse (quoted v.typeName ++ " object has no attribute " ++ quoted "strip") := by
    cases fs with
    | nil => simp [List.lookup] at hlookup
    | cons kv fsT =>
        unfold post_analyze get_json analyze_sentiment
        cases v
        case str s => exact absurd rfl (hv s)
        all_goals
          simp [PyVal.truthy, pyContains, pyGetItem, hlookup,
            bind, Except.bind, pure, Except.pure, PyVal.typeName]
  exact ⟨h, by rw [h]; rfl⟩

/-- C10 witness: an integer `text` value yields the wrapped 500. -/
theorem C10_nonstring_text_500_witness :
    post_analyze (.json (.dict [("text", .int 5)])) (fun _ => .ok []) =
      exceptionResponse
        (quoted (PyVal.int 5).typeName ++ " object has no attribute " ++ quoted "strip") ∧
    (post_analyze (.json (.dict [("text", .int 5)])) (fun _ => .ok [])).status = 500 :=
  C10_nonstring_text_500 [("text", .int 5)] (.int 5) (fun _ => .ok []) rfl
    (fun _ h => PyVal.noConfusion h)
